import Mathlib

/-!
Verification of the CORD-19 metadata cleaning and aggregation pipeline
(`week8assignment/analysis.py` and `week8assignment/app.py`).

Python strings are embedded as `List Char` (the code only manipulates
ASCII text).  Pandas `NaT`/missing values are embedded as `Option`.
`pandas.to_datetime` is modelled on the ISO forms the pipeline feeds it
(`YYYY`, `YYYY-MM`, `YYYY-MM-DD`), including the nanosecond `Timestamp`
range check (Timestamp.min = 1677-09-21 00:12, Timestamp.max =
2262-04-11 23:47): a day-precision date is representable exactly when it
lies in [1677-09-22, 2262-04-11]; outside that range `to_datetime`
raises `OutOfBoundsDatetime` (default `errors`) or returns `NaT`
(`errors = coerce`).
-/

/-- A Python string: a list of characters. -/
abbrev PyStr := List Char

/-- Convenience conversion from Lean string literals. -/
def pys (s : String) : PyStr := s.toList

/-- ASCII digit test, modelling the digit checks done by the pandas date
parser (`0` through `9` are code points 48 through 57). -/
def isDig (c : Char) : Bool := decide (48 ≤ c.toNat) && decide (c.toNat ≤ 57)

/-- Value of a string of ASCII digits, most significant first. -/
def digitsToNat (cs : List Char) : Nat :=
  cs.foldl (fun a c => 10 * a + (c.toNat - 48)) 0

/-- A day-precision date, the embedding of a pandas `Timestamp` as the
pipeline uses it (the time-of-day part is always midnight). -/
structure PDate where
  year : Int
  month : Nat
  day : Nat
deriving DecidableEq

/-- Gregorian leap-year rule, as used by `pandas`. -/
def isLeap (y : Int) : Bool :=
  (y % 4 == 0 && y % 100 != 0) || (y % 400 == 0)

/-- Number of days in a month of a given year. -/
def daysInMonth (y : Int) (m : Nat) : Nat :=
  if m = 2 then (if isLeap y then 29 else 28)
  else if m = 4 || m = 6 || m = 9 || m = 11 then 30
  else 31

/-- Calendar validity of a year/month/day triple. -/
def validYMD (y : Int) (m d : Nat) : Bool :=
  decide (1 ≤ m) && decide (m ≤ 12) && decide (1 ≤ d) && decide (d ≤ daysInMonth y m)

/-- Calendar validity of a `PDate`. -/
def validPDate (d : PDate) : Bool := validYMD d.year d.month d.day

/-- Lexicographic order on day-precision dates. -/
def pdLE (a b : PDate) : Bool :=
  decide (a.year < b.year) ||
    (decide (a.year = b.year) &&
      (decide (a.month < b.month) ||
        (decide (a.month = b.month) && decide (a.day ≤ b.day))))

/-- Whether a day-precision date (at midnight) is representable as a
nanosecond pandas `Timestamp`: between 1677-09-22 and 2262-04-11. -/
def inBounds (d : PDate) : Bool :=
  pdLE ⟨1677, 9, 22⟩ d && pdLE d ⟨2262, 4, 11⟩

/-- Final validation step of the modelled `pandas.to_datetime`: a parsed
triple yields a `Timestamp` exactly when it is a valid calendar date in
the representable range. -/
def checkDate (y : Int) (m d : Nat) : Option PDate :=
  if validYMD y m d && inBounds ⟨y, m, d⟩ then some ⟨y, m, d⟩ else none

/-- Split a character list on the dash separator (Python
`str.split` behaviour specialised to the date strings at hand). -/
def splitDash : List Char → List (List Char)
  | [] => [[]]
  | c :: rest =>
    if c = '-' then [] :: splitDash rest
    else (c :: (splitDash rest).headI) :: (splitDash rest).tail

/-- Parse a 4-digit year field. -/
def year4 (ys : List Char) : Option Int :=
  if ys.length = 4 && ys.all isDig then some (digitsToNat ys : Int) else none

/-- Parse a 1- or 2-digit month or day field. -/
def md2 (ms : List Char) : Option Nat :=
  if (ms.length = 1 || ms.length = 2) && ms.all isDig then some (digitsToNat ms)
  else none

/-- Model of `pandas.to_datetime` on the string shapes this pipeline
produces: ISO `YYYY`, `YYYY-MM` and `YYYY-MM-DD` (pandas parses a bare
year as January 1 and a year-month as the first of the month).  Returns
`none` when the string does not have one of these shapes, is not a valid
calendar date, or falls outside the representable `Timestamp` range. -/
def parseISO (cs : List Char) : Option PDate :=
  match splitDash cs with
  | [ys] => do
    let y ← year4 ys
    checkDate y 1 1
  | [ys, ms] => do
    let y ← year4 ys
    let m ← md2 ms
    checkDate y m 1
  | [ys, ms, ds] => do
    let y ← year4 ys
    let m ← md2 ms
    let d ← md2 ds
    checkDate y m d
  | _ => none

/-- Model of `pd.to_datetime(s, errors = coerce)`: unparsable or
out-of-bounds input becomes `NaT` (`none`). -/
def to_datetime_coerce (cs : List Char) : Option PDate := parseISO cs

/-- Model of `pd.to_datetime(s)` with the default `errors`: unparsable
or out-of-bounds input raises, embedded as `Except.error`. -/
def to_datetime_raise (cs : List Char) : Except String PDate :=
  match parseISO cs with
  | some d => .ok d
  | none => .error "cannot build Timestamp"

/-- A raw `publish_time` cell as `pandas.read_csv` delivers it: either
missing (`NaN`, so `pd.isna` is true) or a string. -/
inductive RawValue where
  | missing
  | str (s : PyStr)
deriving DecidableEq

/-- Body of `convert_publish_time` (analysis.py lines 66-82) before its
enclosing try/except: exceptions escaping `pd.to_datetime` with the
default `errors` surface as `Except.error`. -/
def convert_publish_time_exc : RawValue → Except String (Option PDate)
  | .missing => .ok none
  | .str s =>
    if s.length == 7 && s.contains '-' then
      (to_datetime_raise (s ++ pys "-01")).map some
    else if s.length == 4 then
      (to_datetime_raise (s ++ pys "-01-01")).map some
    else
      .ok (to_datetime_coerce s)

/-- `convert_publish_time` from analysis.py: the whole body is wrapped
in try/except returning `pd.NaT`, so every raised exception degrades to
a missing date. -/
def convert_publish_time (v : RawValue) : Option PDate :=
  match convert_publish_time_exc v with
  | .ok o => o
  | .error _ => none

/-- Body of `convert_date` (app.py lines 20-29) before its enclosing
try/except; unlike analysis.py it has no special `YYYY-MM` branch. -/
def convert_date_exc : RawValue → Except String (Option PDate)
  | .missing => .ok none
  | .str s =>
    if s.length == 4 then
      (to_datetime_raise (s ++ pys "-01-01")).map some
    else
      .ok (to_datetime_coerce s)

/-- `convert_date` from app.py, with its try/except wrapper. -/
def convert_date (v : RawValue) : Option PDate :=
  match convert_date_exc v with
  | .ok o => o
  | .error _ => none

/-- The "Unknown Title" sentinel substituted for a missing title. -/
def unknownTitle : PyStr := pys "Unknown Title"

/-- The "Unknown Journal" sentinel substituted for a missing journal. -/
def unknownJournal : PyStr := pys "Unknown Journal"

/-- A raw input row, keeping the fields the pipeline touches; a `none`
field is a `NaN` cell of the CSV. -/
structure RawRecord where
  title : Option PyStr
  abstract : Option PyStr
  journal : Option PyStr
  publish_time : RawValue
deriving DecidableEq

/-- A row after the `fillna` substitutions: every text field present. -/
structure FilledRecord where
  title : PyStr
  abstract : PyStr
  journal : PyStr
  publish_time : RawValue
deriving DecidableEq

/-- The missing-value substitutions of analysis.py lines 58-62 and
app.py lines 15-17: `fillna` on abstract, title and journal.  A
substitution of one row; it never deletes the row. -/
def fill_missing (r : RawRecord) : FilledRecord :=
  { title := r.title.getD unknownTitle
    abstract := r.abstract.getD []
    journal := r.journal.getD unknownJournal
    publish_time := r.publish_time }

/-- Column-wise `fillna` over the whole frame: one substitution per row. -/
def fill_all (rs : List RawRecord) : List FilledRecord := rs.map fill_missing

/-- A normalized record of the analysis set: `year` is the
`publication_year` column (`publish_time.dt.year`), `none` when the
date is `NaT`. -/
structure CRecord where
  title : PyStr
  abstract : PyStr
  journal : PyStr
  year : Option Int
deriving DecidableEq

/-- Normalization of one filled row: derive `publication_year` from the
converted `publish_time` (analysis.py lines 84-87). -/
def normalize_record (r : FilledRecord) : CRecord :=
  { title := r.title
    abstract := r.abstract
    journal := r.journal
    year := (convert_publish_time r.publish_time).map PDate.year }

/-- Boolean mask of analysis.py line 101,
`df_clean[df_clean['publication_year'] >= 1900]`: in pandas a
comparison against `NaN` is `False`, so a row with undefined year is
dropped by this mask. -/
def yearMask1900 (r : CRecord) : Bool :=
  match r.year with
  | some y => decide (1900 ≤ y)
  | none => false

/-- The post-normalization filter of analysis.py lines 100-101: keep
rows whose title differs from the sentinel, then keep rows passing the
`publication_year >= 1900` mask. -/
def df_clean_filter (rs : List CRecord) : List CRecord :=
  (rs.filter (fun r => decide (r.title ≠ unknownTitle))).filter yearMask1900

/-- The dashboard year-range filter of app.py lines 62-63:
`(year >= lo) & (year <= hi)`; both comparisons are `False` on `NaN`,
so rows with undefined year never pass. -/
def filtered_df (lo hi : Int) (rs : List CRecord) : List CRecord :=
  rs.filter (fun r =>
    match r.year with
    | some y => decide (lo ≤ y) && decide (y ≤ hi)
    | none => false)

/-- The defined publication years of a record collection, in row order. -/
def observedYears (rs : List CRecord) : List Int := rs.filterMap (fun r => r.year)

/-- Keys of a list in first-occurrence order, accumulating the keys
already seen; models the insertion order of a Python `Counter` or of
pandas `value_counts` groups. -/
def firstOccsAux [DecidableEq α] (seen : List α) : List α → List α
  | [] => []
  | x :: xs =>
    if x ∈ seen then firstOccsAux seen xs
    else x :: firstOccsAux (x :: seen) xs

/-- Keys of a list in first-occurrence order. -/
def firstOccs [DecidableEq α] (xs : List α) : List α := firstOccsAux [] xs

/-- Count table of a list: each key in first-occurrence order paired
with its multiplicity, the embedding of `collections.Counter` (whose
keys keep insertion order). -/
def countList [DecidableEq α] (xs : List α) : List (α × Nat) :=
  (firstOccs xs).map (fun k => (k, xs.count k))

/-- Comparison used to rank count tables: descending by count.  A
stable sort with this relation models Python `sorted`
reverse-by-count (and hence `Counter.most_common` and pandas
`value_counts` ordering), whose ties keep the original order. -/
def countGE (p q : α × Nat) : Prop := q.2 ≤ p.2

instance : DecidableRel (fun p q : α × Nat => countGE p q) := fun p q => by
  unfold countGE; exact Nat.decLe q.2 p.2

instance : IsTotal (α × Nat) countGE :=
  ⟨fun p q => (Nat.le_total q.2 p.2).elim Or.inl Or.inr⟩

instance : IsTrans (α × Nat) countGE :=
  ⟨fun _ _ _ h h2 => Nat.le_trans h2 h⟩

/-- Stable descending-by-count sort of a count table. -/
def sortByCountDesc [DecidableEq α] (l : List (α × Nat)) : List (α × Nat) :=
  l.insertionSort countGE

/-- `Counter(xs).most_common(n)`: count in insertion order, stable-sort
descending by count, truncate to `n`. -/
def mostCommon [DecidableEq α] (n : Nat) (xs : List α) : List (α × Nat) :=
  (sortByCountDesc (countList xs)).take n

/-- `pandas.Series.value_counts()`: the count table sorted descending
by count. -/
def value_counts [DecidableEq α] (xs : List α) : List (α × Nat) :=
  sortByCountDesc (countList xs)

/-- Top journals as analysis.py lines 119-120 compute them:
`value_counts().head(n)` FIRST, and only then the exclusion of the
"Unknown Journal" index (the source uses `n = 15`). -/
def top_journals (js : List PyStr) (n : Nat) : List (PyStr × Nat) :=
  ((value_counts js).take n).filter (fun p => decide (p.1 ≠ unknownJournal))

/-- The top-journals view as the specification words it: exclude the
"Unknown Journal" entry first, then truncate the descending ranking to
`n` entries. -/
def top_journals_spec (js : List PyStr) (n : Nat) : List (PyStr × Nat) :=
  ((value_counts js).filter (fun p => decide (p.1 ≠ unknownJournal))).take n

/-- Top journals as app.py line 96 computes them:
`value_counts().head(top_n)` with no exclusion at all. -/
def top_journals_app (js : List PyStr) (n : Nat) : List (PyStr × Nat) :=
  (value_counts js).take n

/-- Ascending order on the year keys of a count table, the relation of
`sort_index()`. -/
def keyLE (p q : Int × Nat) : Prop := p.1 ≤ q.1

instance : DecidableRel (fun p q : Int × Nat => keyLE p q) := fun p q => by
  unfold keyLE; exact Int.decLe p.1 q.1

instance : IsTotal (Int × Nat) keyLE :=
  ⟨fun p q => (Int.le_total p.1 q.1).elim Or.inl Or.inr⟩

instance : IsTrans (Int × Nat) keyLE :=
  ⟨fun _ _ _ h h2 => Int.le_trans h h2⟩

/-- Yearly publication counts,
`df['publication_year'].value_counts().sort_index()` (analysis.py line
114, app.py line 83): count the defined years, order ascending by
year. -/
def yearly_counts (rs : List CRecord) : List (Int × Nat) :=
  (countList (observedYears rs)).insertionSort keyLE

/-- Python whitespace characters (the class `str.split` and the regex
class of whitespace agree on for ASCII text): space, tab, newline,
carriage return, vertical tab, form feed. -/
def isPySpace (c : Char) : Bool :=
  c.toNat == 32 || c.toNat == 9 || c.toNat == 10 ||
    c.toNat == 13 || c.toNat == 11 || c.toNat == 12

/-- ASCII word character, the regex class of word characters restricted
to the ASCII text this dataset holds: letters, digits or underscore. -/
def isWordChar (c : Char) : Bool := c.isAlphanum || c == '_'

/-- ASCII lowercase letter, the regex class from `a` to `z`
(code points 97 through 122). -/
def isLowerAlpha (c : Char) : Bool :=
  decide (97 ≤ c.toNat) && decide (c.toNat ≤ 122)

/-- Python `str.lower` on ASCII text: lowercase every character. -/
def pyLower (cs : PyStr) : PyStr := cs.map Char.toLower

/-- Python `sep.join` specialised to the single-space separator used by
both scripts to concatenate all titles. -/
def joinSpace (ts : List PyStr) : PyStr := List.intercalate [' '] ts

/-- `clean_text` from analysis.py lines 124-127: delete every character
that is neither a word character nor whitespace (the substitution with
the empty replacement), then lowercase.  Deleting, not replacing with a
space, is what glues `COVID-19` into the single token `covid19`. -/
def clean_text (cs : PyStr) : PyStr :=
  pyLower (cs.filter (fun c => isWordChar c || isPySpace c))

/-- Maximal runs of characters satisfying `keep`, in order, separators
dropped. -/
def runsBy (keep : Char → Bool) : List Char → List (List Char)
  | [] => []
  | c :: rest =>
    if keep c then
      match rest with
      | [] => [[c]]
      | c2 :: _ =>
        if keep c2 then
          match runsBy keep rest with
          | g :: gs => (c :: g) :: gs
          | [] => [[c]]
        else [c] :: runsBy keep rest
    else runsBy keep rest

/-- Python `str.split()` with no argument: maximal runs of
non-whitespace characters, empty strings never produced. -/
def splitWS (cs : PyStr) : List PyStr := runsBy (fun c => !isPySpace c) cs

/-- Model of the dashboard tokenizer, `re.findall` of the pattern
word-boundary, three or more lowercase letters, word-boundary (app.py
line 109).  Because every lowercase letter is a word character and a
word boundary can only sit between a word character and a non-word
position, the matches are exactly the maximal word-character runs that
consist solely of lowercase letters and have length at least three. -/
def findall_lcword3 (cs : PyStr) : List PyStr :=
  (runsBy isWordChar cs).filter (fun r => r.all isLowerAlpha && decide (3 ≤ r.length))

/-- The stop-word set of analysis.py line 135. -/
def stop_words_analysis : List PyStr :=
  [pys "the", pys "a", pys "an", pys "and", pys "or", pys "but", pys "in",
   pys "on", pys "at", pys "to", pys "for", pys "of", pys "with", pys "by",
   pys "is", pys "are", pys "was", pys "were", pys "be", pys "been",
   pys "being", pys "have", pys "has", pys "had", pys "do", pys "does",
   pys "did", pys "will", pys "would", pys "could", pys "should", pys "may",
   pys "might", pys "must", pys "can", pys "from", pys "as", pys "that",
   pys "this", pys "these", pys "those", pys "which", pys "what", pys "when",
   pys "where", pys "who", pys "whom", pys "how", pys "why", pys "via",
   pys "using", pys "based", pys "study", pys "review", pys "analysis",
   pys "covid", pys "19", pys "sars", pys "cov", pys "2", pys "coronavirus",
   pys "pandemic"]

/-- The stop-word set of app.py lines 110-111. -/
def stop_words_app : List PyStr :=
  [pys "the", pys "and", pys "for", pys "with", pys "using", pys "based",
   pys "study", pys "review", pys "analysis", pys "covid", pys "19",
   pys "sars", pys "cov", pys "2"]

/-- Title word frequencies as analysis.py lines 130-138 compute them:
join all titles with spaces, `clean_text`, split on whitespace, keep
words outside the stop set with length strictly greater than two, then
`Counter(...).most_common(n)` (the script passes `n = 20`). -/
def word_freq (titles : List PyStr) (n : Nat) : List (PyStr × Nat) :=
  let cleaned := clean_text (joinSpace titles)
  let ws := splitWS cleaned
  let filtered := ws.filter (fun w =>
    decide (w ∉ stop_words_analysis) && decide (2 < w.length))
  mostCommon n filtered

/-- Title word frequencies as app.py lines 108-113 compute them:
join all titles, lowercase, `re.findall` of three-or-more lowercase
letters, drop stop words, `Counter(...).most_common(n)` (the dashboard
passes `n = 15`). -/
def word_freq_app (titles : List PyStr) (n : Nat) : List (PyStr × Nat) :=
  let ws := findall_lcword3 (pyLower (joinSpace titles))
  let filtered := ws.filter (fun w => decide (w ∉ stop_words_app))
  mostCommon n filtered

/-- One run of the Aggregator on a record collection: yearly counts,
top journals and top title words. -/
def aggregate (rs : List CRecord) (nJ nW : Nat) :
    List (Int × Nat) × List (PyStr × Nat) × List (PyStr × Nat) :=
  (yearly_counts rs,
   top_journals (rs.map (fun r => r.journal)) nJ,
   word_freq_app (rs.map (fun r => r.title)) nW)

/-- A normalized record with a perfectly good title but an undefined
publication year, as produced for any unparsable `publish_time`. -/
def noYearRec : CRecord :=
  { title := pys "A Study", abstract := [], journal := pys "Nature", year := none }

/-- A raw row with every optional field missing. -/
def emptyRawRec : RawRecord :=
  { title := none, abstract := none, journal := none, publish_time := .missing }

/-- A record published in 2015. -/
def c8row1 : CRecord :=
  { title := pys "T one", abstract := [], journal := pys "J one", year := some 2015 }

/-- A record published in 2020. -/
def c8row2 : CRecord :=
  { title := pys "T two", abstract := [], journal := pys "J two", year := some 2020 }

/-- A record for exercising the aggregator. -/
def c9row : CRecord :=
  { title := pys "Lung Disease Markers", abstract := [], journal := pys "Nature",
    year := some 2020 }

/-- Numeric value of a four-character digit string, the year a
`YYYY` date field denotes. -/
def yearVal (c1 c2 c3 c4 : Char) : Nat :=
  1000 * (c1.toNat - 48) + 100 * (c2.toNat - 48) + 10 * (c3.toNat - 48) + (c4.toNat - 48)

/-- Numeric value of a two-character digit string, the month a
`MM` date field denotes. -/
def monthVal (m1 m2 : Char) : Nat := 10 * (m1.toNat - 48) + (m2.toNat - 48)

/-- A journal column realizing the counts of the specification scenario:
Nature 5 times, Unknown Journal 10 times, Cell 3 times. -/
def natureCellJournals : List PyStr :=
  List.replicate 5 (pys "Nature") ++ List.replicate 10 unknownJournal ++
    List.replicate 3 (pys "Cell")

/-- A journal column with four distinct journals where the unknown
sentinel dominates: Unknown Journal 10, PLoS One 5, Cell 3, Nature 1. -/
def fourJournals : List PyStr :=
  List.replicate 10 unknownJournal ++ List.replicate 5 (pys "PLoS One") ++
    List.replicate 3 (pys "Cell") ++ [pys "Nature"]

/-- The title of the word-frequency scenario. -/
def covidTitle : PyStr := pys "COVID-19 Analysis of Lung Disease"

set_option maxRecDepth 40000


/-- C1, counterexample: a normalized record whose title is not the
sentinel and whose publication year is undefined is nevertheless
dropped by the post-normalization filter, because the pandas mask
`publication_year >= 1900` is `False` on `NaN`; the claim says such a
record is retained in the analysis set. -/
theorem c1_analysis_set_counterexample :
    noYearRec.title ≠ unknownTitle ∧ noYearRec.year = none ∧
      df_clean_filter [noYearRec] = [] := by decide

/-- C1, amended: the post-normalization filter keeps exactly the
records whose title differs from the "Unknown Title" sentinel and whose
derived year is defined and at least 1900; records with an undefined
year are dropped along with the pre-1900 ones. -/
theorem c1_analysis_set_amended (rs : List CRecord) (r : CRecord) :
    r ∈ df_clean_filter rs ↔
      r ∈ rs ∧ r.title ≠ unknownTitle ∧ ∃ y, r.year = some y ∧ (1900 : Int) ≤ y := by
  unfold df_clean_filter yearMask1900
  simp only [List.mem_filter, decide_eq_true_eq]
  constructor
  · rintro ⟨⟨hmem, htitle⟩, hyear⟩
    refine ⟨hmem, htitle, ?_⟩
    cases h : r.year with
    | none => rw [h] at hyear; cases hyear
    | some y =>
      rw [h] at hyear
      exact ⟨y, rfl, by simpa using hyear⟩
  · rintro ⟨hmem, htitle, y, hy, hge⟩
    refine ⟨⟨hmem, htitle⟩, ?_⟩
    rw [hy]
    simpa using hge

/-- C7: the `fillna` pass substitutes sentinels without deleting rows:
the row count is unchanged, a missing abstract becomes the empty
string, a missing title becomes "Unknown Title", a missing journal
becomes "Unknown Journal", and every present field value (and the raw
date) is carried through unchanged. -/
theorem c7_fillna (rs : List RawRecord) :
    (fill_all rs).length = rs.length ∧
      ∀ r ∈ rs,
        fill_missing r ∈ fill_all rs ∧
        (r.title = none → (fill_missing r).title = unknownTitle) ∧
        (∀ t, r.title = some t → (fill_missing r).title = t) ∧
        (r.abstract = none → (fill_missing r).abstract = []) ∧
        (∀ a, r.abstract = some a → (fill_missing r).abstract = a) ∧
        (r.journal = none → (fill_missing r).journal = unknownJournal) ∧
        (∀ j, r.journal = some j → (fill_missing r).journal = j) ∧
        (fill_missing r).publish_time = r.publish_time := by
  refine ⟨List.length_map _ _, fun r hr => ?_⟩
  refine ⟨List.mem_map_of_mem _ hr, ?_, ?_, ?_, ?_, ?_, ?_, rfl⟩ <;>
    intros <;> simp_all [fill_missing]

/-- C7, witness: instantiating the substitution theorem on a one-row
frame whose fields are all missing. -/
theorem c7_fillna_witness :
    (fill_all [emptyRawRec]).length = 1 ∧
      (fill_missing emptyRawRec).title = unknownTitle ∧
      (fill_missing emptyRawRec).journal = unknownJournal ∧
      (fill_missing emptyRawRec).abstract = [] := by
  have h := c7_fillna [emptyRawRec]
  have h2 := h.2 emptyRawRec (by decide)
  exact ⟨h.1, h2.2.1 rfl, h2.2.2.2.2.2.1 rfl, h2.2.2.2.1 rfl⟩

/-- A left fold by `min` never exceeds its initial accumulator. -/
theorem foldl_min_le_init : ∀ (l : List Int) (a : Int), l.foldl min a ≤ a := by
  intro l
  induction l with
  | nil => intro a; exact le_refl a
  | cons b t ih =>
    intro a
    calc (b :: t).foldl min a = t.foldl min (min a b) := rfl
      _ ≤ min a b := ih (min a b)
      _ ≤ a := min_le_left a b

/-- A left fold by `min` never exceeds any list element. -/
theorem foldl_min_le_mem : ∀ (l : List Int) (a x : Int), x ∈ l → l.foldl min a ≤ x := by
  intro l
  induction l with
  | nil => intro a x hx; cases hx
  | cons b t ih =>
    intro a x hx
    rcases List.mem_cons.mp hx with h | h
    · subst h
      calc (x :: t).foldl min a = t.foldl min (min a x) := rfl
        _ ≤ min a x := foldl_min_le_init t (min a x)
        _ ≤ x := min_le_right a x
    · exact ih (min a b) x h

/-- The observed minimum of a list bounds every element from below. -/
theorem min?_spec {l : List Int} {m : Int} (h : l.min? = some m) : ∀ x ∈ l, m ≤ x := by
  cases l with
  | nil => cases h
  | cons a t =>
    have hm : m = t.foldl min a := by simpa [List.min?] using h.symm
    intro x hx
    rcases List.mem_cons.mp hx with h1 | h1
    · subst h1; rw [hm]; exact foldl_min_le_init t x
    · rw [hm]; exact foldl_min_le_mem t a x h1

/-- A left fold by `max` is at least its initial accumulator. -/
theorem le_foldl_max_init : ∀ (l : List Int) (a : Int), a ≤ l.foldl max a := by
  intro l
  induction l with
  | nil => intro a; exact le_refl a
  | cons b t ih =>
    intro a
    calc a ≤ max a b := le_max_left a b
      _ ≤ t.foldl max (max a b) := ih (max a b)
      _ = (b :: t).foldl max a := rfl

/-- A left fold by `max` is at least any list element. -/
theorem le_foldl_max_mem : ∀ (l : List Int) (a x : Int), x ∈ l → x ≤ l.foldl max a := by
  intro l
  induction l with
  | nil => intro a x hx; cases hx
  | cons b t ih =>
    intro a x hx
    rcases List.mem_cons.mp hx with h | h
    · subst h
      calc x ≤ max a x := le_max_right a x
        _ ≤ t.foldl max (max a x) := le_foldl_max_init t (max a x)
        _ = (x :: t).foldl max a := rfl
    · exact ih (max a b) x h

/-- The observed maximum of a list bounds every element from above. -/
theorem max?_spec {l : List Int} {M : Int} (h : l.max? = some M) : ∀ x ∈ l, x ≤ M := by
  cases l with
  | nil => cases h
  | cons a t =>
    have hm : M = t.foldl max a := by simpa [List.max?] using h.symm
    intro x hx
    rcases List.mem_cons.mp hx with h1 | h1
    · subst h1; rw [hm]; exact le_foldl_max_init t x
    · rw [hm]; exact le_foldl_max_mem t a x h1

/-- C8: the dashboard year-range filter keeps exactly the records with
a defined year inside the inclusive bounds (undefined-year records
never pass), and filtering by the full observed year range is the
identity, hence preserves the record count, whenever every record has a
defined year. -/
theorem c8_range_filter :
    (∀ (lo hi : Int) (rs : List CRecord) (r : CRecord),
        r ∈ filtered_df lo hi rs ↔
          r ∈ rs ∧ ∃ y, r.year = some y ∧ lo ≤ y ∧ y ≤ hi) ∧
      ∀ (rs : List CRecord) (m M : Int),
        (observedYears rs).min? = some m →
        (observedYears rs).max? = some M →
        (∀ r ∈ rs, (r.year).isSome) →
        filtered_df m M rs = rs := by
  constructor
  · intro lo hi rs r
    unfold filtered_df
    simp only [List.mem_filter]
    constructor
    · rintro ⟨hmem, hmask⟩
      refine ⟨hmem, ?_⟩
      cases h : r.year with
      | none => rw [h] at hmask; cases hmask
      | some y =>
        rw [h] at hmask
        simp only [Bool.and_eq_true, decide_eq_true_eq] at hmask
        exact ⟨y, rfl, hmask.1, hmask.2⟩
    · rintro ⟨hmem, y, hy, h1, h2⟩
      refine ⟨hmem, ?_⟩
      rw [hy]
      simp [h1, h2]
  · intro rs m M hmin hmax hdef
    apply List.filter_eq_self.mpr
    intro r hr
    rcases Option.isSome_iff_exists.mp (hdef r hr) with ⟨y, hy⟩
    have hmem : y ∈ observedYears rs := by
      unfold observedYears
      exact List.mem_filterMap.mpr ⟨r, hr, hy⟩
    rw [hy]
    simp [min?_spec hmin y hmem, max?_spec hmax y hmem]

/-- C8, witness: on a two-record collection with observed years 2015
and 2020, filtering by [2015, 2020] returns the collection unchanged,
and the 2015 record passes the characterization. -/
theorem c8_range_filter_witness :
    filtered_df 2015 2020 [c8row1, c8row2] = [c8row1, c8row2] ∧
      c8row1 ∈ filtered_df 2015 2020 [c8row1, c8row2] :=
  ⟨c8_range_filter.2 [c8row1, c8row2] 2015 2020 (by decide) (by decide) (by decide),
   (c8_range_filter.1 2015 2020 [c8row1, c8row2] c8row1).mpr
     ⟨by decide, 2015, by decide, by decide, by decide⟩⟩

/-- Splitting a string that starts with a dash emits an empty first
field. -/
theorem splitDash_dash (ys : List Char) : splitDash ('-' :: ys) = [] :: splitDash ys := by
  simp [splitDash]

/-- Splitting a string that starts with a non-dash prepends that
character to the first field. -/
theorem splitDash_cons_ne {c : Char} (h : ¬ c = '-') (ys : List Char) :
    splitDash (c :: ys) = (c :: (splitDash ys).headI) :: (splitDash ys).tail := by
  simp [splitDash, h]

/-- Splitting separates a dash-free prefix from the remainder. -/
theorem splitDash_append : ∀ xs : List Char, (∀ c ∈ xs, ¬ c = '-') →
    ∀ ys, splitDash (xs ++ '-' :: ys) = xs :: splitDash ys := by
  intro xs
  induction xs with
  | nil => intro _ ys; simpa using splitDash_dash ys
  | cons c t ih =>
    intro h ys
    have hc : ¬ c = '-' := h c (List.mem_cons_self c t)
    rw [List.cons_append, splitDash_cons_ne hc,
      ih (fun x hx => h x (List.mem_cons_of_mem c hx)) ys]
    simp

/-- A dash-free string splits into a single field. -/
theorem splitDash_nodash : ∀ xs : List Char, (∀ c ∈ xs, ¬ c = '-') →
    splitDash xs = [xs] := by
  intro xs
  induction xs with
  | nil => intro _; rfl
  | cons c t ih =>
    intro h
    have hc : ¬ c = '-' := h c (List.mem_cons_self c t)
    rw [splitDash_cons_ne hc, ih (fun x hx => h x (List.mem_cons_of_mem c hx))]
    simp

/-- A digit character is not a dash. -/
theorem isDig_ne_dash {c : Char} (h : isDig c = true) : ¬ c = '-' := by
  intro he
  subst he
  exact absurd h (by decide)

/-- Code-point bounds of a digit character. -/
theorem isDig_bounds {c : Char} (h : isDig c = true) : 48 ≤ c.toNat ∧ c.toNat ≤ 57 := by
  simpa [isDig] using h

/-- Value of a four-character digit string. -/
theorem digitsToNat_four (c1 c2 c3 c4 : Char) :
    digitsToNat [c1, c2, c3, c4] =
      1000 * (c1.toNat - 48) + 100 * (c2.toNat - 48) + 10 * (c3.toNat - 48) +
        (c4.toNat - 48) := by
  simp [digitsToNat, List.foldl]
  ring

/-- Value of a two-character digit string. -/
theorem digitsToNat_two (c1 c2 : Char) :
    digitsToNat [c1, c2] = 10 * (c1.toNat - 48) + (c2.toNat - 48) := by
  simp [digitsToNat, List.foldl]

/-- The year field parser on four digit characters. -/
theorem year4_digits (c1 c2 c3 c4 : Char)
    (h1 : isDig c1 = true) (h2 : isDig c2 = true) (h3 : isDig c3 = true)
    (h4 : isDig c4 = true) :
    year4 [c1, c2, c3, c4] = some ((yearVal c1 c2 c3 c4 : Nat) : Int) := by
  simp [year4, h1, h2, h3, h4, digitsToNat_four, yearVal]

/-- The month/day field parser on two digit characters. -/
theorem md2_digits (m1 m2 : Char) (h1 : isDig m1 = true) (h2 : isDig m2 = true) :
    md2 [m1, m2] = some (monthVal m1 m2) := by
  simp [md2, h1, h2, digitsToNat_two, monthVal]

/-- Every month has at least one day. -/
theorem one_le_daysInMonth (y : Int) (m : Nat) : 1 ≤ daysInMonth y m := by
  unfold daysInMonth
  repeat' split
  all_goals omega

/-- The first day of an in-range month is a valid in-bounds date. -/
theorem checkDate_first_of_month (y : Int) (m : Nat)
    (hm1 : 1 ≤ m) (hm2 : m ≤ 12) (hb : inBounds ⟨y, m, 1⟩ = true) :
    checkDate y m 1 = some ⟨y, m, 1⟩ := by
  unfold checkDate
  rw [if_pos]
  rw [Bool.and_eq_true]
  refine ⟨?_, hb⟩
  simp [validYMD, hm1, hm2, one_le_daysInMonth y m]

/-- January 1 of a year between 1678 and 2262 is representable. -/
theorem inBounds_of_year {y : Int} (hlo : 1678 ≤ y) (hhi : y ≤ 2262) :
    inBounds ⟨y, 1, 1⟩ = true := by
  simp only [inBounds, pdLE, Bool.and_eq_true, Bool.or_eq_true, decide_eq_true_eq]
  omega

/-- Two digit characters are dash-free. -/
theorem nd2 {m1 m2 : Char} (hm1 : isDig m1 = true) (hm2 : isDig m2 = true) :
    ∀ c ∈ [m1, m2], ¬ c = '-' := by
  intro c hc
  simp only [List.mem_cons, List.not_mem_nil, or_false] at hc
  rcases hc with h | h <;> subst h
  · exact isDig_ne_dash hm1
  · exact isDig_ne_dash hm2

/-- Four digit characters are dash-free. -/
theorem nd4 {c1 c2 c3 c4 : Char} (h1 : isDig c1 = true) (h2 : isDig c2 = true)
    (h3 : isDig c3 = true) (h4 : isDig c4 = true) :
    ∀ c ∈ [c1, c2, c3, c4], ¬ c = '-' := by
  intro c hc
  simp only [List.mem_cons, List.not_mem_nil, or_false] at hc
  rcases hc with h | h | h | h <;> subst h
  · exact isDig_ne_dash h1
  · exact isDig_ne_dash h2
  · exact isDig_ne_dash h3
  · exact isDig_ne_dash h4

/-- Strict-mode `to_datetime` on a digit-only `YYYY` string extended by
`-01-01`, for an in-range year: January 1 of that year. -/
theorem to_datetime_raise_year (c1 c2 c3 c4 : Char)
    (h1 : isDig c1 = true) (h2 : isDig c2 = true) (h3 : isDig c3 = true)
    (h4 : isDig c4 = true)
    (hlo : 1678 ≤ yearVal c1 c2 c3 c4) (hhi : yearVal c1 c2 c3 c4 ≤ 2262) :
    to_datetime_raise ([c1, c2, c3, c4] ++ pys "-01-01") =
      .ok ⟨(yearVal c1 c2 c3 c4 : Int), 1, 1⟩ := by
  have happ : [c1, c2, c3, c4] ++ pys "-01-01" =
      [c1, c2, c3, c4] ++ '-' :: ['0', '1', '-', '0', '1'] := rfl
  have hrest : splitDash ['0', '1', '-', '0', '1'] = [['0', '1'], ['0', '1']] := rfl
  have hbnd : inBounds ⟨((yearVal c1 c2 c3 c4 : Nat) : Int), 1, 1⟩ = true := by
    apply inBounds_of_year <;> omega
  have hy4 := year4_digits c1 c2 c3 c4 h1 h2 h3 h4
  have hmd : md2 ['0', '1'] = some 1 := rfl
  unfold to_datetime_raise parseISO
  rw [happ, splitDash_append [c1, c2, c3, c4] (nd4 h1 h2 h3 h4), hrest]
  simp [hy4, hmd, checkDate_first_of_month _ 1 (by omega) (by omega) hbnd]

/-- The modelled parser on a digit-only `YYYY-MM` string whose month is
in range and whose first-of-month is representable: the first day of
that month. -/
theorem parseISO_year_month (y1 y2 y3 y4 m1 m2 : Char)
    (h1 : isDig y1 = true) (h2 : isDig y2 = true) (h3 : isDig y3 = true)
    (h4 : isDig y4 = true) (hm1 : isDig m1 = true) (hm2 : isDig m2 = true)
    (hmlo : 1 ≤ monthVal m1 m2) (hmhi : monthVal m1 m2 ≤ 12)
    (hb : inBounds ⟨((yearVal y1 y2 y3 y4 : Nat) : Int), monthVal m1 m2, 1⟩ = true) :
    parseISO [y1, y2, y3, y4, '-', m1, m2] =
      some ⟨(yearVal y1 y2 y3 y4 : Int), monthVal m1 m2, 1⟩ := by
  have hsplit : splitDash [y1, y2, y3, y4, '-', m1, m2] =
      [[y1, y2, y3, y4], [m1, m2]] := by
    have he : ([y1, y2, y3, y4, '-', m1, m2] : List Char) =
        [y1, y2, y3, y4] ++ '-' :: [m1, m2] := rfl
    rw [he, splitDash_append [y1, y2, y3, y4] (nd4 h1 h2 h3 h4),
      splitDash_nodash [m1, m2] (nd2 hm1 hm2)]
  unfold parseISO
  rw [hsplit]
  simp [year4_digits y1 y2 y3 y4 h1 h2 h3 h4, md2_digits m1 m2 hm1 hm2,
    checkDate_first_of_month _ _ hmlo hmhi hb]

/-- Strict-mode `to_datetime` on a digit-only `YYYY-MM` string extended
by `-01`: the first day of that month. -/
theorem to_datetime_raise_year_month (y1 y2 y3 y4 m1 m2 : Char)
    (h1 : isDig y1 = true) (h2 : isDig y2 = true) (h3 : isDig y3 = true)
    (h4 : isDig y4 = true) (hm1 : isDig m1 = true) (hm2 : isDig m2 = true)
    (hmlo : 1 ≤ monthVal m1 m2) (hmhi : monthVal m1 m2 ≤ 12)
    (hb : inBounds ⟨((yearVal y1 y2 y3 y4 : Nat) : Int), monthVal m1 m2, 1⟩ = true) :
    to_datetime_raise ([y1, y2, y3, y4, '-', m1, m2] ++ pys "-01") =
      .ok ⟨(yearVal y1 y2 y3 y4 : Int), monthVal m1 m2, 1⟩ := by
  have hsplit : splitDash ([y1, y2, y3, y4, '-', m1, m2] ++ pys "-01") =
      [[y1, y2, y3, y4], [m1, m2], ['0', '1']] := by
    have he : ([y1, y2, y3, y4, '-', m1, m2] : List Char) ++ pys "-01" =
        [y1, y2, y3, y4] ++ '-' :: ([m1, m2] ++ '-' :: ['0', '1']) := rfl
    rw [he, splitDash_append [y1, y2, y3, y4] (nd4 h1 h2 h3 h4),
      splitDash_append [m1, m2] (nd2 hm1 hm2)]
    rfl
  unfold to_datetime_raise parseISO
  rw [hsplit]
  have hmd : md2 ['0', '1'] = some 1 := rfl
  simp [year4_digits y1 y2 y3 y4 h1 h2 h3 h4, md2_digits m1 m2 hm1 hm2, hmd,
    checkDate_first_of_month _ _ hmlo hmhi hb]

/-- C4, counterexample: the four-digit year string "1600" is converted
to `NaT` by both normalizers, not to January 1 of 1600, because
`pd.to_datetime("1600-01-01")` raises `OutOfBoundsDatetime` (outside
the nanosecond `Timestamp` range) and the enclosing try/except turns
that into `NaT`; the claim promises January 1 of the year for every
four-digit digit string. -/
theorem c4_year_only_counterexample :
    (pys "1600").length = 4 ∧ (∀ c ∈ pys "1600", isDig c = true) ∧
      convert_publish_time (.str (pys "1600")) = none ∧
      convert_date (.str (pys "1600")) = none ∧
      convert_publish_time (.str (pys "1600")) ≠ some ⟨1600, 1, 1⟩ := by decide

/-- C4, amended: for every raw date string of length exactly 4
consisting of digits whose value lies in the representable `Timestamp`
year range 1678 to 2262, both date normalizers yield January 1 of that
year (outside that range the value degrades to an undefined date). -/
theorem c4_year_only_amended (c1 c2 c3 c4 : Char)
    (h1 : isDig c1 = true) (h2 : isDig c2 = true) (h3 : isDig c3 = true)
    (h4 : isDig c4 = true)
    (hlo : 1678 ≤ yearVal c1 c2 c3 c4) (hhi : yearVal c1 c2 c3 c4 ≤ 2262) :
    convert_publish_time (.str [c1, c2, c3, c4]) =
        some ⟨(yearVal c1 c2 c3 c4 : Int), 1, 1⟩ ∧
      convert_date (.str [c1, c2, c3, c4]) =
        some ⟨(yearVal c1 c2 c3 c4 : Int), 1, 1⟩ := by
  have key := to_datetime_raise_year c1 c2 c3 c4 h1 h2 h3 h4 hlo hhi
  constructor
  · have hexc : convert_publish_time_exc (.str [c1, c2, c3, c4]) =
        (to_datetime_raise ([c1, c2, c3, c4] ++ pys "-01-01")).map some := rfl
    unfold convert_publish_time
    rw [hexc, key]
    rfl
  · have hexc : convert_date_exc (.str [c1, c2, c3, c4]) =
        (to_datetime_raise ([c1, c2, c3, c4] ++ pys "-01-01")).map some := rfl
    unfold convert_date
    rw [hexc, key]
    rfl

/-- C4, witness: the year string "2020" normalizes to January 1 2020
under both converters. -/
theorem c4_year_only_witness :
    convert_publish_time (.str (pys "2020")) = some ⟨2020, 1, 1⟩ ∧
      convert_date (.str (pys "2020")) = some ⟨2020, 1, 1⟩ :=
  c4_year_only_amended '2' '0' '2' '0' (by decide) (by decide) (by decide)
    (by decide) (by decide) (by decide)

/-- C5, counterexample: the `YYYY-MM` string "1600-05" is converted to
`NaT` by both normalizers, not to the first day of May 1600, because
the resulting timestamp is outside the representable nanosecond range;
the claim promises the first day of the month for every length-7
`YYYY-MM` string. -/
theorem c5_year_month_counterexample :
    (pys "1600-05").length = 7 ∧
      convert_publish_time (.str (pys "1600-05")) = none ∧
      convert_date (.str (pys "1600-05")) = none ∧
      convert_publish_time (.str (pys "1600-05")) ≠ some ⟨1600, 5, 1⟩ := by decide

/-- C5, amended: for every raw date string of the digit-only form
`YYYY-MM` whose month is between 1 and 12 and whose first-of-month lies
in the representable `Timestamp` range, both date normalizers yield the
first day of that month (analysis.py through its length-7 branch,
app.py through the general coercing parse). -/
theorem c5_year_month_amended (y1 y2 y3 y4 m1 m2 : Char)
    (h1 : isDig y1 = true) (h2 : isDig y2 = true) (h3 : isDig y3 = true)
    (h4 : isDig y4 = true) (hm1 : isDig m1 = true) (hm2 : isDig m2 = true)
    (hmlo : 1 ≤ monthVal m1 m2) (hmhi : monthVal m1 m2 ≤ 12)
    (hb : inBounds ⟨((yearVal y1 y2 y3 y4 : Nat) : Int), monthVal m1 m2, 1⟩ = true) :
    convert_publish_time (.str [y1, y2, y3, y4, '-', m1, m2]) =
        some ⟨(yearVal y1 y2 y3 y4 : Int), monthVal m1 m2, 1⟩ ∧
      convert_date (.str [y1, y2, y3, y4, '-', m1, m2]) =
        some ⟨(yearVal y1 y2 y3 y4 : Int), monthVal m1 m2, 1⟩ := by
  constructor
  · have hcond : (([y1, y2, y3, y4, '-', m1, m2] : List Char).length == 7 &&
        [y1, y2, y3, y4, '-', m1, m2].contains '-') = true := by simp
    unfold convert_publish_time convert_publish_time_exc
    simp only [hcond, if_true,
      to_datetime_raise_year_month y1 y2 y3 y4 m1 m2 h1 h2 h3 h4 hm1 hm2 hmlo hmhi hb]
    rfl
  · have hexc : convert_date_exc (.str [y1, y2, y3, y4, '-', m1, m2]) =
        .ok (to_datetime_coerce [y1, y2, y3, y4, '-', m1, m2]) := rfl
    unfold convert_date
    rw [hexc]
    show to_datetime_coerce [y1, y2, y3, y4, '-', m1, m2] = _
    unfold to_datetime_coerce
    exact parseISO_year_month y1 y2 y3 y4 m1 m2 h1 h2 h3 h4 hm1 hm2 hmlo hmhi hb

/-- C5, witness: the year-month string "2020-03" normalizes to March 1
2020 under both converters. -/
theorem c5_year_month_witness :
    convert_publish_time (.str (pys "2020-03")) = some ⟨2020, 3, 1⟩ ∧
      convert_date (.str (pys "2020-03")) = some ⟨2020, 3, 1⟩ :=
  c5_year_month_amended '2' '0' '2' '0' '0' '3' (by decide) (by decide) (by decide)
    (by decide) (by decide) (by decide) (by decide) (by decide) (by decide)

/-- A successful `checkDate` certifies validity and representability. -/
theorem checkDate_some {y : Int} {m d : Nat} {p : PDate} (h : checkDate y m d = some p) :
    validPDate p = true ∧ inBounds p = true := by
  unfold checkDate at h
  split at h
  · rename_i hc
    cases h
    rw [Bool.and_eq_true] at hc
    exact ⟨hc.1, hc.2⟩
  · cases h

/-- Whatever the modelled parser returns is a valid in-bounds date. -/
theorem parseISO_valid {cs : List Char} {p : PDate} (h : parseISO cs = some p) :
    validPDate p = true ∧ inBounds p = true := by
  unfold parseISO at h
  split at h
  · rcases Option.bind_eq_some.mp h with ⟨y, _, h2⟩
    exact checkDate_some h2
  · rcases Option.bind_eq_some.mp h with ⟨y, _, h2⟩
    rcases Option.bind_eq_some.mp h2 with ⟨m, _, h3⟩
    exact checkDate_some h3
  · rcases Option.bind_eq_some.mp h with ⟨y, _, h2⟩
    rcases Option.bind_eq_some.mp h2 with ⟨m, _, h3⟩
    rcases Option.bind_eq_some.mp h3 with ⟨d, _, h4⟩
    exact checkDate_some h4
  · cases h

/-- A successful strict-mode `to_datetime` comes from the parser. -/
theorem to_datetime_raise_ok {cs : List Char} {d : PDate}
    (h : to_datetime_raise cs = .ok d) : parseISO cs = some d := by
  unfold to_datetime_raise at h
  split at h
  · rename_i hp
    cases h
    exact hp
  · cases h

/-- The converted value of any raw cell is either a missing date or a
valid in-bounds date. -/
theorem convert_publish_time_none_or_valid (v : RawValue) :
    convert_publish_time v = none ∨
      ∃ d, convert_publish_time v = some d ∧ validPDate d = true ∧ inBounds d = true := by
  cases v with
  | missing => exact Or.inl rfl
  | str s =>
    unfold convert_publish_time convert_publish_time_exc
    by_cases h7 : (s.length == 7 && s.contains '-') = true
    · simp only [h7, if_true]
      cases hr : to_datetime_raise (s ++ pys "-01") with
      | ok d =>
        right
        exact ⟨d, by simp [hr, Except.map], parseISO_valid (to_datetime_raise_ok hr)⟩
      | error e => left; simp [hr, Except.map]
    · simp only [h7, if_false, Bool.false_eq_true]
      by_cases h4 : (s.length == 4) = true
      · simp only [h4, if_true]
        cases hr : to_datetime_raise (s ++ pys "-01-01") with
        | ok d =>
          right
          exact ⟨d, by simp [hr, Except.map], parseISO_valid (to_datetime_raise_ok hr)⟩
        | error e => left; simp [hr, Except.map]
      · simp only [h4, if_false, Bool.false_eq_true]
        cases hp : to_datetime_coerce s with
        | none => left; simp [hp]
        | some d =>
          right
          exact ⟨d, by simp [hp], parseISO_valid hp⟩

/-- C6: per-record date normalization is total and never lets an
exception escape: a missing cell maps to `NaT`, every produced value is
`NaT` or a valid in-bounds date, and whenever the body of either
converter raises (surfacing as `Except.error`), the enclosing
try/except returns `NaT` instead of propagating. -/
theorem c6_convert_total :
    (convert_publish_time .missing = none ∧ convert_date .missing = none) ∧
      (∀ v, convert_publish_time v = none ∨
        ∃ d, convert_publish_time v = some d ∧ validPDate d = true ∧
          inBounds d = true) ∧
      (∀ (v : RawValue) (e : String),
        convert_publish_time_exc v = .error e → convert_publish_time v = none) ∧
      (∀ (v : RawValue) (e : String),
        convert_date_exc v = .error e → convert_date v = none) := by
  refine ⟨⟨rfl, rfl⟩, convert_publish_time_none_or_valid, ?_, ?_⟩
  · intro v e h
    unfold convert_publish_time
    rw [h]
  · intro v e h
    unfold convert_date
    rw [h]

/-- C6, witness: the body of both converters genuinely raises on
"1600" (an out-of-bounds timestamp) and the wrappers return `NaT`. -/
theorem c6_convert_total_witness :
    convert_publish_time (.str (pys "1600")) = none ∧
      convert_date (.str (pys "1600")) = none :=
  ⟨c6_convert_total.2.2.1 (.str (pys "1600")) "cannot build Timestamp" (by rfl),
   c6_convert_total.2.2.2 (.str (pys "1600")) "cannot build Timestamp" (by rfl)⟩

/-- First-occurrence keys come from the traversed list. -/
theorem firstOccsAux_subset {α : Type} [DecidableEq α] :
    ∀ (l seen : List α), firstOccsAux seen l ⊆ l := by
  intro l
  induction l with
  | nil => intro seen x hx; cases hx
  | cons a t ih =>
    intro seen x hx
    unfold firstOccsAux at hx
    by_cases h : a ∈ seen
    · rw [if_pos h] at hx
      exact List.mem_cons_of_mem a (ih seen hx)
    · rw [if_neg h] at hx
      rcases List.mem_cons.mp hx with h1 | h1
      · exact h1 ▸ List.mem_cons_self a t
      · exact List.mem_cons_of_mem a (ih (a :: seen) h1)

/-- Every key of a count table occurs in the counted list. -/
theorem countList_key_mem {α : Type} [DecidableEq α] {xs : List α} {p : α × Nat}
    (h : p ∈ countList xs) : p.1 ∈ xs := by
  unfold countList firstOccs at h
  rcases List.mem_map.mp h with ⟨k, hk, he⟩
  subst he
  exact firstOccsAux_subset xs [] hk

/-- Every key of a `most_common` table occurs in the counted list. -/
theorem mostCommon_mem {α : Type} [DecidableEq α] {xs : List α} {n : Nat} {p : α × Nat}
    (h : p ∈ mostCommon n xs) : p.1 ∈ xs := by
  unfold mostCommon sortByCountDesc at h
  exact countList_key_mem ((List.mem_insertionSort countGE).mp (List.take_subset n _ h))

/-- A lowercase letter is not a digit. -/
theorem isDig_false_of_lower {c : Char} (h : isLowerAlpha c = true) : isDig c = false := by
  simp only [isLowerAlpha, Bool.and_eq_true, decide_eq_true_eq] at h
  have hn : ¬ (c.toNat ≤ 57) := by omega
  simp [isDig, hn]

/-- C2, counterexample: on a journal column with counts Unknown
Journal 10, PLoS One 5, Cell 3, Nature 1 and a top-3 request, the code
truncates to the top 3 (which include the unknown sentinel) and only
then excludes it, returning 2 journals, while the claimed
exclude-sort-truncate order would return 3; the two orders disagree, so
the top-N view is not computed as the claim states. -/
theorem c2_top_journals_counterexample :
    top_journals fourJournals 3 = [(pys "PLoS One", 5), (pys "Cell", 3)] ∧
      top_journals_spec fourJournals 3 =
        [(pys "PLoS One", 5), (pys "Cell", 3), (pys "Nature", 1)] ∧
      top_journals fourJournals 3 ≠ top_journals_spec fourJournals 3 := by decide

/-- C2, amended: the batch top-N journal view sorts descending by count
(ties by first encounter), truncates to N, and only then drops the
"Unknown Journal" entry, so it can return fewer than N journals; it
still never contains the sentinel, never exceeds N entries, and is
ordered by descending count, and the scenario counts (Nature 5, Unknown
Journal 10, Cell 3) with a top-3 request yield exactly
[(Nature, 5), (Cell, 3)].  The dashboard slider view (app.py) applies
no exclusion at all and can show the sentinel. -/
theorem c2_top_journals_amended :
    top_journals natureCellJournals 3 = [(pys "Nature", 5), (pys "Cell", 3)] ∧
      (∀ (js : List PyStr) (n : Nat),
        (top_journals js n).length ≤ n ∧
          (∀ p ∈ top_journals js n, p.1 ≠ unknownJournal) ∧
          List.Pairwise countGE (top_journals js n)) ∧
      (unknownJournal, 10) ∈ top_journals_app fourJournals 3 := by
  refine ⟨by decide, ?_, by decide⟩
  intro js n
  refine ⟨?_, ?_, ?_⟩
  · calc (top_journals js n).length ≤ ((value_counts js).take n).length :=
        List.length_filter_le _ _
      _ ≤ n := List.length_take_le n _
  · intro p hp
    have h := List.of_mem_filter hp
    simpa using h
  · have hs : List.Pairwise countGE (value_counts js) :=
      List.sorted_insertionSort countGE (countList js)
    have hsub : List.Sublist (top_journals js n) (value_counts js) :=
      (List.filter_sublist _).trans (List.take_sublist n _)
    exact hs.sublist hsub

/-- C2, witness: the universally quantified part instantiated on the
scenario column with a top-3 request. -/
theorem c2_top_journals_witness :
    (top_journals natureCellJournals 3).length ≤ 3 ∧
      (pys "Nature", (5 : Nat)).1 ≠ unknownJournal :=
  ⟨(c2_top_journals_amended.2.1 natureCellJournals 3).1,
   (c2_top_journals_amended.2.1 natureCellJournals 3).2.1 (pys "Nature", 5) (by decide)⟩

/-- C3, counterexample: on the single title "COVID-19 Analysis of Lung
Disease" the batch pipeline (analysis.py) deletes the hyphen rather
than replacing it, so "COVID-19" becomes the token "covid19", which is
neither in the stop set (only "covid" and "19" are) nor short, and so
survives into the frequency table; the output is not exactly
the tokens "lung" and "disease". -/
theorem c3_title_tokens_counterexample :
    (pys "covid19", 1) ∈ word_freq [covidTitle] 20 ∧
      pys "covid19" ≠ pys "lung" ∧ pys "covid19" ≠ pys "disease" := by decide

/-- C3, amended: the dashboard pipeline (app.py), whose regex only
admits all-letter tokens, yields exactly the frequency tokens lung 1
and disease 1 on this title; the batch pipeline (analysis.py) yields
covid19 1, lung 1, disease 1, the extra token coming from hyphen
deletion gluing "covid" to "19". -/
theorem c3_title_tokens_amended :
    word_freq_app [covidTitle] 15 = [(pys "lung", 1), (pys "disease", 1)] ∧
      word_freq [covidTitle] 20 =
        [(pys "covid19", 1), (pys "lung", 1), (pys "disease", 1)] := by decide

/-- C9: the Aggregator is deterministic and idempotent over its input:
the embedding of every aggregation (counting in first-encounter order,
stable insertion sorting, truncation) is a pure function, so two runs
on identical input return identical ordered tables, tie order
included. -/
theorem c9_aggregator_deterministic (rs1 rs2 : List CRecord) (nJ nW : Nat)
    (h : rs1 = rs2) : aggregate rs1 nJ nW = aggregate rs2 nJ nW := by rw [h]

/-- C9, witness: two runs on a concrete one-record collection. -/
theorem c9_aggregator_deterministic_witness :
    aggregate [c9row] 10 15 = aggregate [c9row] 10 15 :=
  c9_aggregator_deterministic [c9row] [c9row] 10 15 rfl

/-- C10: every word in the dashboard top-words table is made of
lowercase ASCII letters only and has length at least 3; in particular
no token with a digit ever appears. -/
theorem c10_word_tokens (titles : List PyStr) (n : Nat) (p : PyStr × Nat)
    (hp : p ∈ word_freq_app titles n) :
    (∀ c ∈ p.1, isLowerAlpha c = true) ∧ 3 ≤ p.1.length ∧
      ∀ c ∈ p.1, isDig c = false := by
  unfold word_freq_app at hp
  have h3 : p.1 ∈ (findall_lcword3 (pyLower (joinSpace titles))).filter
      (fun w => decide (w ∉ stop_words_app)) := mostCommon_mem hp
  have h4 : p.1 ∈ findall_lcword3 (pyLower (joinSpace titles)) :=
    List.mem_of_mem_filter h3
  have h5 := List.of_mem_filter h4
  simp only [Bool.and_eq_true, decide_eq_true_eq, List.all_eq_true] at h5
  refine ⟨h5.1, h5.2, fun c hc => isDig_false_of_lower (h5.1 c hc)⟩

/-- C10, witness: the token "lung" of the scenario title's table is all
lowercase letters of length at least 3. -/
theorem c10_word_tokens_witness :
    (∀ c ∈ pys "lung", isLowerAlpha c = true) ∧ 3 ≤ (pys "lung").length := by
  have h := c10_word_tokens [covidTitle] 15 (pys "lung", 1) (by decide)
  exact ⟨h.1, h.2.1⟩
